import Mathlib

/-!
# Verification of the OKN unified MCP server

A shallow embedding of the server's core pipeline (endpoint registry,
tool-catalog name generation, request dispatch, SPARQL execution with
timeout, result formatting) and proofs of the specified properties.

Modelling conventions:
- JavaScript exceptions are modelled with `Except String`, the error
  message being the thrown `Error`'s message (for a `TypeError` raised by
  property access on `undefined`/`null`, the engine-style message text).
- A JS object that may be `undefined`/`null` is an `Option`; a possibly
  missing property is an `Option` field.
- The outcome of the single outbound `fetch` is abstracted as a
  `FetchOutcome` value supplied by an oracle function (the network is
  outside the program); `executeSparqlQuery` consumes that outcome exactly
  as the source's control flow does.
- Outbound calls are tracked explicitly as a list of (url, body) pairs so
  that "no outbound call is issued" is a provable statement.
-/

/-- A bound SPARQL value as the formatter observes it: `binding[v].value`.
Other keys of the JSON term object are never read by the program. -/
structure BindingValue where
  value : String
deriving DecidableEq, Repr

/-- One result row: a JS object mapping variable names to term objects,
modelled as an association list with unique keys (`binding[v]` is
`List.lookup`, absent property = `none`). -/
def Binding : Type := List (String × BindingValue)

instance : DecidableEq Binding := inferInstanceAs (DecidableEq (List (String × BindingValue)))

/-- `data.head`: may itself lack the `vars` property. -/
structure SparqlHead where
  vars : Option (List String)
deriving DecidableEq

/-- `data.results`: may itself lack the `bindings` property. -/
structure SparqlResults where
  bindings : Option (List Binding)
deriving DecidableEq

/-- The parsed JSON payload returned by a SPARQL endpoint; `head` and
`results` properties may each be absent. A `null`/`undefined` payload as a
whole is `Option Payload = none` at use sites. -/
structure Payload where
  head : Option SparqlHead
  results : Option SparqlResults
deriving DecidableEq

/-- One registry entry's metadata (`url`, `domain`, `description`). -/
structure EndpointInfo where
  url : String
  domain : String
  description : String
deriving DecidableEq

/-- The FRINK_ENDPOINTS object: all 18 SPARQL endpoints, in source
definition order, keyed by knowledge-graph identifier. -/
def FRINK_ENDPOINTS : List (String × EndpointInfo) := [
  ("biobricks-ice", ⟨"https://frink.apps.renci.org/biobricks-ice/sparql",
    "Cheminformatics and Chemical Safety",
    "Open knowledge graph for cheminformatics and chemical safety"⟩),
  ("biohealth", ⟨"https://frink.apps.renci.org/biohealth/sparql",
    "Healthcare and Social Determinants",
    "Dynamically-updated network integrating biomedical insights with social determinants of health"⟩),
  ("climatepub4kg", ⟨"https://frink.apps.renci.org/climatepub4kg/sparql",
    "Climate Science",
    "Knowledge graph to support evaluation and development of climate models"⟩),
  ("dreamkg", ⟨"https://frink.apps.renci.org/dreamkg/sparql",
    "Homelessness and Social Services",
    "Dynamic, Responsive, Adaptive, and Multifaceted KG to Address Homelessness with Explainable AI"⟩),
  ("fiokg", ⟨"https://frink.apps.renci.org/fiokg/sparql",
    "Food and Water Safety",
    "Part of SAWGraph project for monitoring contaminants in food and water systems"⟩),
  ("geoconnex", ⟨"https://frink.apps.renci.org/geoconnex/sparql",
    "Hydrology and Water Resources",
    "Community-driven KG linking U.S. hydrologic features for seamless water data discovery"⟩),
  ("hydrologykg", ⟨"https://frink.apps.renci.org/hydrologykg/sparql",
    "Hydrology",
    "Part of SAWGraph project focused on hydrological data"⟩),
  ("scales", ⟨"https://frink.apps.renci.org/scales/sparql",
    "Criminal Justice",
    "Integrated justice platform knowledge graph"⟩),
  ("securechainkg", ⟨"https://frink.apps.renci.org/securechainkg/sparql",
    "Software Supply Chain Security",
    "Knowledge graph for software supply chain security"⟩),
  ("semopenalex", ⟨"https://frink.apps.renci.org/semopenalex/sparql",
    "Scientific Publications",
    "Comprehensive information on scientific publications and related entities"⟩),
  ("sockg", ⟨"https://frink.apps.renci.org/sockg/sparql",
    "Soil Carbon",
    "Soil carbon modeling for voluntary carbon markets"⟩),
  ("spatialkg", ⟨"https://frink.apps.renci.org/spatialkg/sparql",
    "Spatial/Geographic Data",
    "Spatial and geographic knowledge graph"⟩),
  ("spoke", ⟨"https://frink.apps.renci.org/spoke/sparql",
    "Precision Medicine",
    "Scalable Precision Medicine Open Knowledge Engine integrating NASA GeneLab with health data"⟩),
  ("sudokn", ⟨"https://frink.apps.renci.org/sudokn/sparql",
    "Manufacturing Capabilities",
    "Manufacturing capability data for small and medium enterprises"⟩),
  ("ubergraph", ⟨"https://frink.apps.renci.org/ubergraph/sparql",
    "Biomedical Ontologies",
    "Integrated suite of OBO ontologies with precomputed inferred relationships"⟩),
  ("wildlifekg", ⟨"https://frink.apps.renci.org/wildlifekg/sparql",
    "Wildlife Management",
    "Wildlife management in the context of climate change"⟩),
  ("wikidata", ⟨"https://frink.apps.renci.org/wikidata/sparql",
    "Universal Knowledge Backbone",
    "Free, open, collaborative knowledge base (OKN backbone)"⟩),
  ("sawgraph", ⟨"https://frink.apps.renci.org/sawgraph/sparql",
    "Agricultural Safety and Water Quality",
    "Safe Agricultural Products and Water Graph - monitoring PFAS and contaminants"⟩)
]

/-- The distinguished federated endpoint URL. -/
def FEDERATED_ENDPOINT : String := "https://frink.apps.renci.org/federation/sparql"

/-! ## String helpers (character-level embeddings of the JS operations) -/

/-- JS global single-character replace: every occurrence of character `a`
becomes `b`. -/
def replaceChar (a b : Char) (s : String) : String :=
  String.mk (s.data.map fun c => if c = a then b else c)

/-- JS `String.prototype.startsWith` on the character sequence. -/
def strStartsWith (s p : String) : Bool :=
  p.data.isPrefixOf s.data

/-- Drop the first `n` characters (used to strip the matched prefix). -/
def strDrop (s : String) (n : Nat) : String :=
  String.mk (s.data.drop n)

/-- JS string length for the ASCII tool/identifier names in play. -/
def strLen (s : String) : Nat := s.data.length

/-- `sub` occurs as a contiguous substring of `l`. -/
def listHasInfix (l sub : List Char) : Bool :=
  match l with
  | [] => sub.isEmpty
  | _ :: t => sub.isPrefixOf l || listHasInfix t sub

/-- JS `String.prototype.includes`. -/
def strContains (s sub : String) : Bool :=
  listHasInfix s.data sub.data

/-- A JS regex line terminator (which `.` does not match). -/
def isLineTerminator (c : Char) : Bool :=
  c = '\n' || c = '\r' || c = ' ' || c = ' '

/-- Embedding of `name.match(/^query_(.+)$/)`: it yields the capture group
when `name` is `query_` followed by a non-empty run of non-line-terminator
characters, and `null` (`none`) otherwise. -/
def kgMatch (name : String) : Option String :=
  if strStartsWith name "query_" && decide (6 < strLen name)
      && (strDrop name 6).data.all (fun c => !isLineTerminator c) then
    some (strDrop name 6)
  else
    none

/-- The ListTools handler's generated tool name for a registry identifier:
the fixed prefix `query_` plus the identifier with every hyphen replaced
by an underscore. -/
def generateToolName (id : String) : String :=
  "query_" ++ replaceChar '-' '_' id

/-- The CallTool handler's recovery of the identifier from a tool name:
the regex capture, with every underscore replaced by a hyphen. -/
def recoverIdentifier (toolName : String) : Option String :=
  (kgMatch toolName).map (replaceChar '_' '-')

/-! ## Query Executor (`executeSparqlQuery`) -/

/-- What the program observes of one outbound `fetch`:
- `abort`: the promise rejected with an `AbortError` (the timeout timer
  fired and `controller.abort()` cancelled the operation);
- `response status bodyText json`: an HTTP response arrived; `bodyText` is
  the body as text (read on the error path), `json` is the result of
  parsing the body as JSON (`Except.error` = `response.json()` rejected;
  `Except.ok none` = the body was the JSON literal `null`);
- `netError msg`: any other transport failure (DNS, reset, ...), rejecting
  with an `Error` whose name is not `AbortError`. -/
inductive FetchOutcome where
  | abort
  | response (status : Nat) (bodyText : String) (json : Except String (Option Payload))
  | netError (msg : String)

/-- `response.ok`: status in the inclusive range 200–299. -/
def responseOk (status : Nat) : Bool :=
  decide (200 ≤ status) && decide (status ≤ 299)

/-- `executeSparqlQuery(endpoint, query, timeout = 30000)`, given the
outcome of its single `fetch`. On an `AbortError` the catch block throws
`` `Query timeout after ${timeout}ms` ``; a non-ok response throws
`` `HTTP ${response.status}: ${errorText}` ``; other errors are rethrown
unchanged (the timer is cleared on every path, which has no observable
effect in this model). -/
def executeSparqlQuery (outcome : FetchOutcome) (timeout : Nat := 30000) :
    Except String (Option Payload) :=
  match outcome with
  | FetchOutcome.abort =>
      Except.error ("Query timeout after " ++ Nat.repr timeout ++ "ms")
  | FetchOutcome.netError msg => Except.error msg
  | FetchOutcome.response status bodyText json =>
      if responseOk status then
        match json with
        | Except.ok data => Except.ok data
        | Except.error msg => Except.error msg
      else
        Except.error ("HTTP " ++ Nat.repr status ++ ": " ++ bodyText)

/-! ## Result Formatter (`formatResults`) -/

/-- One table cell: `binding[v] ? binding[v].value : ""` (a present term
object is always truthy in JS). -/
def bindingCell (b : Binding) (v : String) : String :=
  match List.lookup v b with
  | some term => term.value
  | none => ""

/-- The row-limit literal `100` from `bindings.slice(0, 100)`. -/
def ROW_LIMIT : Nat := 100

/-- The trailing truncation note
`` `\n(Showing first 100 of ${bindings.length} results)` ``. -/
def truncationNote (total : Nat) : String :=
  "\n(Showing first 100 of " ++ Nat.repr total ++ " results)"

/-- The table-building part of `formatResults`, reached only with a
non-empty `bindings` and a present `vars`: header line, separator line of
`---` cells, one line per binding of the first 100 (accumulated by `+=` in
a loop, i.e. a left fold), and the truncation note iff more than 100
bindings exist. `vars.join(" | ")` is `String.intercalate " | "`. -/
def buildTable (vars : List String) (bindings : List Binding) : String :=
  let header := String.intercalate " | " vars ++ "\n"
  let sep := String.intercalate " | " (vars.map fun _ => "---") ++ "\n"
  let displayBindings := bindings.take ROW_LIMIT
  let table := displayBindings.foldl
    (fun acc b => acc ++ String.intercalate " | " (vars.map (bindingCell b)) ++ "\n")
    (header ++ sep)
  if ROW_LIMIT < bindings.length then table ++ truncationNote bindings.length
  else table

/-- `formatResults(data)`. The guard
`!data.results || !data.results.bindings || data.results.bindings.length === 0`
returns "No results found."; but a `null`/`undefined` `data` makes the very
first property access `data.results` throw a TypeError, and with non-empty
bindings the unguarded reads `data.head.vars` / `vars.join` throw when
`head` or `vars` is absent. -/
def formatResults (data : Option Payload) : Except String String :=
  match data with
  | none =>
      Except.error "Cannot read properties of null (reading 'results')"
  | some d =>
      match d.results with
      | none => Except.ok "No results found."
      | some r =>
          match r.bindings with
          | none => Except.ok "No results found."
          | some bs =>
              if bs.length = 0 then Except.ok "No results found."
              else
                match d.head with
                | none =>
                    Except.error "Cannot read properties of undefined (reading 'vars')"
                | some h =>
                    match h.vars with
                    | none =>
                        Except.error "Cannot read properties of undefined (reading 'join')"
                    | some vars => Except.ok (buildTable vars bs)

/-! ## Spec-side formatter (for the refinement claims)

`specFormatTable` follows the words of the specification: a header row of
the variables joined by the column separator, a separator row with one
placeholder cell per variable, up to 100 data rows (cell = bound value or
empty string), and a trailing note exactly when the total binding count
exceeds 100. It is compared against `buildTable`, which mirrors the
source's accumulator loop. -/

/-- Concatenate lines, terminating each with a newline. -/
def linesConcat : List String → String
  | [] => ""
  | s :: ss => s ++ "\n" ++ linesConcat ss

/-- Header row per the spec: variables joined by the column separator. -/
def specHeaderRow (vars : List String) : String :=
  String.intercalate " | " vars

/-- Separator row per the spec: one placeholder cell per variable. -/
def specSeparatorRow (vars : List String) : String :=
  String.intercalate " | " (vars.map fun _ => "---")

/-- One data row per the spec: each cell is the bound value's string form
or the empty string when the variable is unbound in that row. -/
def specDataRow (vars : List String) (b : Binding) : String :=
  String.intercalate " | " (vars.map (bindingCell b))

/-- The table per the spec's words. -/
def specFormatTable (vars : List String) (bindings : List Binding) : String :=
  linesConcat
      (specHeaderRow vars :: specSeparatorRow vars
        :: (bindings.take ROW_LIMIT).map (specDataRow vars))
    ++ (if ROW_LIMIT < bindings.length then truncationNote bindings.length else "")

/-! ## Raw-JSON rendering and catalog listing

`JSON.stringify(data, null, 2)` is rendered by a straightforward
structural serializer. Its exact whitespace/escaping is not load-bearing
for any verified property (no claim inspects this text); what matters is
that it is a total function of the payload, so it can never throw. -/

/-- Quote a string as a JSON literal (escaping elided; see section note). -/
def jsonQuote (s : String) : String := "\"" ++ s ++ "\""

/-- Render one binding object. -/
def stringifyBinding (b : Binding) : String :=
  "\x7b" ++ String.intercalate ", "
    (b.map fun p =>
      jsonQuote p.1 ++ ": \x7b\"value\": " ++ jsonQuote p.2.value ++ "\x7d")
  ++ "\x7d"

/-- Render the payload (`null` when absent). -/
def stringifyPayload : Option Payload → String
  | none => "null"
  | some d =>
      "\x7b"
      ++ (match d.head with
          | none => ""
          | some h =>
            match h.vars with
            | none => "\"head\": \x7b\x7d, "
            | some vs =>
              "\"head\": \x7b\"vars\": [" ++ String.intercalate ", " (vs.map jsonQuote)
                ++ "]\x7d, ")
      ++ (match d.results with
          | none => ""
          | some r =>
            match r.bindings with
            | none => "\"results\": \x7b\x7d"
            | some bs =>
              "\"results\": \x7b\"bindings\": ["
                ++ String.intercalate ", " (bs.map stringifyBinding) ++ "]\x7d")
      ++ "\x7d"

/-- The `list_knowledge_graphs` response text: `JSON.stringify(kgList, null, 2)`
over the registry entries (name, endpoint, domain, description). -/
def kgListText : String :=
  "[" ++ String.intercalate ", "
    (FRINK_ENDPOINTS.map fun p =>
      "\x7b\"name\": " ++ jsonQuote p.1
      ++ ", \"endpoint\": " ++ jsonQuote p.2.url
      ++ ", \"domain\": " ++ jsonQuote p.2.domain
      ++ ", \"description\": " ++ jsonQuote p.2.description ++ "\x7d")
  ++ "]"

/-! ## Request Dispatcher (the CallTool handler) -/

/-- The `arguments` object when present: it may lack the `query` property
(`none`), or carry a string value. (Non-string JSON values for `query` are
flowed through by the code just like strings; the string case suffices for
every property verified here.) -/
structure ArgsObj where
  query : Option String
deriving DecidableEq

/-- Reading `args.query`: when `arguments` itself is `undefined`, the
property access throws a TypeError before any call is made. -/
def getQueryArg (args : Option ArgsObj) : Except String (Option String) :=
  match args with
  | none => Except.error "Cannot read properties of undefined (reading 'query')"
  | some a => Except.ok a.query

/-- The network, abstracted: the outcome of a `fetch` to a given URL with
a given body (`none` = `undefined` body, when `query` was absent). -/
def Oracle : Type := String → Option String → FetchOutcome

/-- An outbound call recorded as (url, body). -/
def OutboundCall : Type := String × Option String

instance : DecidableEq OutboundCall := inferInstanceAs (DecidableEq (String × Option String))

/-- The federated-branch success text. -/
def federatedText (formatted : String) (data : Option Payload) : String :=
  "# Federated Query Results\n\n" ++ formatted
    ++ "\n\n## Raw JSON:\n```json\n" ++ stringifyPayload data ++ "\n```"

/-- The per-graph-branch success text. -/
def kgQueryText (kgName formatted : String) (data : Option Payload) : String :=
  "# Query Results from " ++ kgName ++ "\n\n" ++ formatted
    ++ "\n\n## Raw JSON:\n```json\n" ++ stringifyPayload data ++ "\n```"

/-- The body of the CallTool handler's `try` block, in source order:
1. `name === "list_knowledge_graphs"`: return the registry listing.
2. `name === "query_federated"`: read `args.query` (may throw), issue the
   one outbound call to `FEDERATED_ENDPOINT`, format, return.
3. `name.match(/^query_(.+)$/)`: recover the identifier (underscore to
   hyphen), look it up (throw `` `Unknown knowledge graph: ${kgName}` `` on
   a miss), then read `args.query`, call, format, return.
4. otherwise throw `` `Unknown tool: ${name}` ``.
The second component records the outbound calls actually issued. -/
def runTool (oracle : Oracle) (name : String) (args : Option ArgsObj) :
    Except String String × List OutboundCall :=
  if name = "list_knowledge_graphs" then
    (Except.ok kgListText, [])
  else if name = "query_federated" then
    match getQueryArg args with
    | Except.error m => (Except.error m, [])
    | Except.ok q =>
        match executeSparqlQuery (oracle FEDERATED_ENDPOINT q) with
        | Except.error m => (Except.error m, [(FEDERATED_ENDPOINT, q)])
        | Except.ok data =>
            match formatResults data with
            | Except.error m => (Except.error m, [(FEDERATED_ENDPOINT, q)])
            | Except.ok formatted =>
                (Except.ok (federatedText formatted data), [(FEDERATED_ENDPOINT, q)])
  else
    match kgMatch name with
    | none => (Except.error ("Unknown tool: " ++ name), [])
    | some captured =>
        let kgName := replaceChar '_' '-' captured
        match List.lookup kgName FRINK_ENDPOINTS with
        | none => (Except.error ("Unknown knowledge graph: " ++ kgName), [])
        | some endpoint =>
            match getQueryArg args with
            | Except.error m => (Except.error m, [])
            | Except.ok q =>
                match executeSparqlQuery (oracle endpoint.url q) with
                | Except.error m => (Except.error m, [(endpoint.url, q)])
                | Except.ok data =>
                    match formatResults data with
                    | Except.error m => (Except.error m, [(endpoint.url, q)])
                    | Except.ok formatted =>
                        (Except.ok (kgQueryText kgName formatted data), [(endpoint.url, q)])

/-- The uniform response envelope. JS success envelopes simply omit
`isError` (falsy); that is modelled as `isError = false`. -/
structure ResponseEnvelope where
  text : String
  isError : Bool
deriving DecidableEq

/-- The whole CallTool handler: the `try` body wrapped in the `catch` that
converts any thrown error into `` `Error: ${error.message}` `` with
`isError: true`. Totality of this function is the model of "the Dispatcher
never raises past its own boundary". -/
def handleCallTool (oracle : Oracle) (name : String) (args : Option ArgsObj) :
    ResponseEnvelope × List OutboundCall :=
  match runTool oracle name args with
  | (Except.ok text, calls) => (⟨text, false⟩, calls)
  | (Except.error m, calls) => (⟨"Error: " ++ m, true⟩, calls)

/-! ## Helper lemmas -/

/-- The source's accumulator loop (`table += row + "\n"`) concatenates one
newline-terminated line per element after the initial accumulator. -/
theorem foldl_append_newline {α : Type} (f : α → String) (l : List α) (a : String) :
    l.foldl (fun acc b => acc ++ f b ++ "\n") a = a ++ linesConcat (l.map f) := by
  induction l generalizing a with
  | nil => simp [linesConcat, String.append_empty]
  | cons x xs ih =>
      rw [List.foldl_cons, ih, List.map_cons]
      simp only [linesConcat, String.append_assoc]

/-- `specDataRow` as a function-level equation (for rewriting under `List.map`). -/
theorem specDataRow_fun (vars : List String) :
    specDataRow vars = fun b => String.intercalate " | " (vars.map (bindingCell b)) := rfl

/-- The source's table construction agrees with the spec-side table. -/
theorem buildTable_eq_specFormatTable (vars : List String) (bs : List Binding) :
    buildTable vars bs = specFormatTable vars bs := by
  simp only [buildTable, specFormatTable, specHeaderRow, specSeparatorRow, specDataRow]
  rw [foldl_append_newline (fun b => String.intercalate " | " (vars.map (bindingCell b)))]
  by_cases h : ROW_LIMIT < bs.length <;>
    simp [h, linesConcat, specDataRow_fun, String.append_assoc, String.append_empty]

/-- The catch block leaves the outbound-call record untouched. -/
theorem handleCallTool_calls (oracle : Oracle) (name : String) (args : Option ArgsObj) :
    (handleCallTool oracle name args).2 = (runTool oracle name args).2 := by
  unfold handleCallTool
  rcases h : runTool oracle name args with ⟨e, cs⟩
  cases e <;> simp

/-- The envelope's error flag is set exactly when the try block threw. -/
theorem handleCallTool_isError (oracle : Oracle) (name : String) (args : Option ArgsObj) :
    (handleCallTool oracle name args).1.isError = true
      ↔ ∃ m, (runTool oracle name args).1 = Except.error m := by
  unfold handleCallTool
  rcases h : runTool oracle name args with ⟨e, cs⟩
  cases e with
  | ok t => simp
  | error m => simp

/-! ## Claim theorems -/

/-- C2: for every identifier in the endpoint registry, generating the tool
name (prefix `query_`, hyphens to underscores) and then applying the
inverse mapping (strip the prefix, underscores to hyphens) yields the
original identifier exactly. -/
theorem registry_name_roundtrip (id : String)
    (h : id ∈ FRINK_ENDPOINTS.map Prod.fst) :
    recoverIdentifier (generateToolName id) = some id := by
  fin_cases h <;> rfl

/-- Witness for C2 at the one hyphenated identifier. -/
theorem registry_name_roundtrip_witness :
    "biobricks-ice" ∈ FRINK_ENDPOINTS.map Prod.fst
      ∧ recoverIdentifier (generateToolName "biobricks-ice") = some "biobricks-ice" :=
  ⟨by decide, registry_name_roundtrip "biobricks-ice" (by decide)⟩

/-- C6: when the outbound operation is aborted by the timeout, the
Executor fails with an error whose message carries the configured
duration; the default is 30000 ms and it is overridable per call; with
timeout 50 the message contains "50". -/
theorem executor_timeout_message :
    (∀ timeout : Nat,
        executeSparqlQuery FetchOutcome.abort timeout
          = Except.error ("Query timeout after " ++ Nat.repr timeout ++ "ms"))
      ∧ executeSparqlQuery FetchOutcome.abort
          = Except.error "Query timeout after 30000ms"
      ∧ executeSparqlQuery FetchOutcome.abort 50
          = Except.error "Query timeout after 50ms"
      ∧ strContains "Query timeout after 50ms" "50" = true :=
  ⟨fun _ => rfl, rfl, rfl, by decide⟩

/-- C7: on a non-2xx response the Executor fails with an error carrying
the numeric status code and the response body text, and returns no
payload. -/
theorem executor_http_error (status : Nat) (bodyText : String)
    (json : Except String (Option Payload)) (timeout : Nat)
    (h : responseOk status = false) :
    executeSparqlQuery (FetchOutcome.response status bodyText json) timeout
        = Except.error ("HTTP " ++ Nat.repr status ++ ": " ++ bodyText)
      ∧ ∀ d, executeSparqlQuery (FetchOutcome.response status bodyText json) timeout
          ≠ Except.ok d := by
  have hmain : executeSparqlQuery (FetchOutcome.response status bodyText json) timeout
      = Except.error ("HTTP " ++ Nat.repr status ++ ": " ++ bodyText) := by
    simp [executeSparqlQuery, h]
  exact ⟨hmain, fun d hd => by rw [hmain] at hd; exact Except.noConfusion hd⟩

/-- Witness for C7 at a concrete 404 response. -/
theorem executor_http_error_witness :
    responseOk 404 = false
      ∧ executeSparqlQuery (FetchOutcome.response 404 "Not Found" (Except.ok none)) 30000
          = Except.error "HTTP 404: Not Found" :=
  ⟨by decide,
    (executor_http_error 404 "Not Found" (Except.ok none) 30000 (by decide)).1⟩

/-- C8: the generated-tool pattern requires a non-empty suffix: a call
named exactly `query_` does not enter the registry-lookup branch (the
regex does not match) and yields the unknown-tool error envelope. -/
theorem bare_prefix_is_unknown_tool :
    kgMatch "query_" = none
      ∧ ∀ (oracle : Oracle) (args : Option ArgsObj),
          handleCallTool oracle "query_" args
              = (⟨"Error: Unknown tool: query_", true⟩, [])
            ∧ (handleCallTool oracle "query_" args).2 = [] :=
  ⟨rfl, fun _ _ => ⟨rfl, rfl⟩⟩

/-- A payload with an empty bindings list (a successful empty result). -/
def emptyResultPayload : Payload := ⟨none, some ⟨some []⟩⟩

/-- An oracle whose endpoint always answers 200 with an empty result. -/
def emptyResultOracle : Oracle :=
  fun _ _ => FetchOutcome.response 200 "" (Except.ok (some emptyResultPayload))

/-- C1 counterexample: dispatching `query_federated` with an arguments
object that lacks `query` does NOT produce an error envelope and DOES
issue an outbound call to the federated endpoint (with `undefined` body):
the handler performs no validation of `arguments.query`. -/
theorem federated_missing_query_still_calls :
    (handleCallTool emptyResultOracle "query_federated" (some ⟨none⟩)).1.isError = false
      ∧ (handleCallTool emptyResultOracle "query_federated" (some ⟨none⟩)).2
          = [(FEDERATED_ENDPOINT, none)] :=
  ⟨rfl, rfl⟩

/-- C1 (amended): the `query_federated` branch performs no validation.
When the arguments object itself is absent, the property access
`args.query` throws, yielding an error envelope with no outbound call;
when an arguments object is present — whether `query` is absent, empty, or
any string — exactly one outbound call to the FederatedEndpoint is issued,
carrying `args.query` as the body. -/
theorem federated_dispatch_no_validation (oracle : Oracle) :
    ((handleCallTool oracle "query_federated" none).1.isError = true
        ∧ (handleCallTool oracle "query_federated" none).1.text
            = "Error: Cannot read properties of undefined (reading 'query')"
        ∧ (handleCallTool oracle "query_federated" none).2 = [])
      ∧ ∀ a : ArgsObj,
          (handleCallTool oracle "query_federated" (some a)).2
            = [(FEDERATED_ENDPOINT, a.query)] := by
  refine ⟨⟨rfl, rfl, rfl⟩, fun a => ?_⟩
  rw [handleCallTool_calls]
  unfold runTool
  rw [if_neg (by decide), if_pos rfl]
  simp only [getQueryArg]
  cases hx : executeSparqlQuery (oracle FEDERATED_ENDPOINT a.query) 30000 with
  | error m => simp [hx]
  | ok d =>
      cases hf : formatResults d with
      | error m => simp [hx, hf]
      | ok t => simp [hx, hf]

/-- C3: the Dispatcher never raises past its own boundary — it is a total
function into response envelopes, whose error flag is set exactly when the
try block threw — and a generated-pattern name whose recovered identifier
has no registry entry (here `query_doesnotexist`) yields an `isError`
envelope naming the unresolved identifier, with no outbound call. -/
theorem dispatcher_catches_all_failures :
    (∀ (oracle : Oracle) (name : String) (args : Option ArgsObj),
        (handleCallTool oracle name args).1.isError = true
          ↔ ∃ m, (runTool oracle name args).1 = Except.error m)
      ∧ ∀ (oracle : Oracle) (args : Option ArgsObj),
          handleCallTool oracle "query_doesnotexist" args
              = (⟨"Error: Unknown knowledge graph: doesnotexist", true⟩, [])
            ∧ strContains
                (handleCallTool oracle "query_doesnotexist" args).1.text
                "doesnotexist" = true := by
  refine ⟨handleCallTool_isError, fun oracle args => ?_⟩
  have h : handleCallTool oracle "query_doesnotexist" args
      = (⟨"Error: Unknown knowledge graph: doesnotexist", true⟩, []) := rfl
  exact ⟨h, by rw [h]; decide⟩

/-- C4 counterexample: when the payload itself is absent, the formatter
does not return "No results found." — the very first property access
throws a TypeError. -/
theorem formatter_absent_payload_throws :
    formatResults none
        = Except.error "Cannot read properties of null (reading 'results')"
      ∧ formatResults none ≠ Except.ok "No results found." :=
  ⟨rfl, fun h => Except.noConfusion h⟩

/-- C4 (amended): for every payload that is present, if its `results`
property is absent, its `bindings` property is absent, or the bindings
sequence is empty, the formatter returns exactly the literal string
"No results found." and builds no table; a payload that is absent
altogether instead makes the formatter throw. -/
theorem formatter_empty_bindings_no_results (p : Payload)
    (h : p.results = none
        ∨ ∃ r, p.results = some r ∧ (r.bindings = none ∨ r.bindings = some [])) :
    formatResults (some p) = Except.ok "No results found." := by
  rcases p with ⟨hd, res⟩
  rcases h with h | ⟨r, hr, hb⟩
  · simp only at h
    subst h
    rfl
  · simp only at hr
    subst hr
    rcases r with ⟨b⟩
    simp only at hb
    rcases hb with hb | hb <;> (subst hb; rfl)

/-- Witness for C4 (amended) at a present payload with an empty bindings
list. -/
theorem formatter_empty_bindings_no_results_witness :
    ((⟨none, some ⟨some []⟩⟩ : Payload).results = none
        ∨ ∃ r, (⟨none, some ⟨some []⟩⟩ : Payload).results = some r
            ∧ (r.bindings = none ∨ r.bindings = some []))
      ∧ formatResults (some ⟨none, some ⟨some []⟩⟩) = Except.ok "No results found." :=
  ⟨Or.inr ⟨⟨some []⟩, rfl, Or.inr rfl⟩,
    formatter_empty_bindings_no_results ⟨none, some ⟨some []⟩⟩
      (Or.inr ⟨⟨some []⟩, rfl, Or.inr rfl⟩)⟩

/-- C5: for every payload with a non-empty bindings sequence (and the
variables list present), the formatter output is exactly the spec-side
table: header row of the variables joined by the column separator, a
separator row of one placeholder cell per variable, at most 100 data rows
whose cells are the bound value or the empty string, and — when the total
binding count exceeds 100 — a trailing note carrying the display count
(the literal "first 100") and the true total. -/
theorem formatter_table_shape (vars : List String) (bs : List Binding)
    (h : bs ≠ []) :
    formatResults (some ⟨some ⟨some vars⟩, some ⟨some bs⟩⟩)
        = Except.ok (specFormatTable vars bs)
      ∧ ((bs.take ROW_LIMIT).map (specDataRow vars)).length = min bs.length ROW_LIMIT
      ∧ (ROW_LIMIT < bs.length →
          specFormatTable vars bs
            = linesConcat (specHeaderRow vars :: specSeparatorRow vars
                  :: (bs.take ROW_LIMIT).map (specDataRow vars))
              ++ truncationNote bs.length) := by
  have hlen : ¬ bs.length = 0 := by simpa [List.length_eq_zero] using h
  refine ⟨?_, ?_, ?_⟩
  · simp [formatResults, hlen, buildTable_eq_specFormatTable]
  · rw [List.length_map, List.length_take, Nat.min_comm]
  · intro hgt
    simp [specFormatTable, hgt]

/-- One sample result row binding the variable `s`. -/
def sampleBinding : Binding := [("s", ⟨"http://example.org/x"⟩)]

/-- 150 identical sample rows. -/
def bindings150 : List Binding := List.replicate 150 sampleBinding

/-- Witness for C5 at 150 bindings: exactly 100 data rows are shown and
the trailing note cites "150". -/
theorem formatter_table_shape_witness :
    bindings150 ≠ []
      ∧ formatResults (some ⟨some ⟨some ["s"]⟩, some ⟨some bindings150⟩⟩)
          = Except.ok (specFormatTable ["s"] bindings150)
      ∧ ((bindings150.take ROW_LIMIT).map (specDataRow ["s"])).length
          = min bindings150.length ROW_LIMIT
      ∧ min bindings150.length ROW_LIMIT = 100
      ∧ ROW_LIMIT < bindings150.length
      ∧ (ROW_LIMIT < bindings150.length →
          specFormatTable ["s"] bindings150
            = linesConcat (specHeaderRow ["s"] :: specSeparatorRow ["s"]
                  :: (bindings150.take ROW_LIMIT).map (specDataRow ["s"]))
              ++ truncationNote bindings150.length)
      ∧ strContains (truncationNote bindings150.length) "150" = true := by
  have h : bindings150 ≠ [] := by simp [bindings150]
  have hl : bindings150.length = 150 := by simp [bindings150]
  have ht := formatter_table_shape ["s"] bindings150 h
  exact ⟨h, ht.1, ht.2.1, by rw [hl]; decide, by rw [hl]; decide, ht.2.2,
    by rw [hl]; decide⟩

/-- C9: a payload with a non-empty bindings sequence but no variables list
(`head` absent, or `head.vars` absent) makes the formatter throw rather
than return a table, and the Dispatcher converts that into an error
envelope. -/
theorem formatter_missing_vars_raises (bs : List Binding) (args : ArgsObj)
    (h : bs ≠ []) :
    (∃ m, formatResults (some ⟨none, some ⟨some bs⟩⟩) = Except.error m)
      ∧ (∃ m, formatResults (some ⟨some ⟨none⟩, some ⟨some bs⟩⟩) = Except.error m)
      ∧ (handleCallTool
            (fun _ _ => FetchOutcome.response 200 ""
              (Except.ok (some ⟨none, some ⟨some bs⟩⟩)))
            "query_wikidata" (some args)).1.isError = true := by
  have hlen : ¬ bs.length = 0 := by simpa [List.length_eq_zero] using h
  have hfmt : formatResults (some ⟨none, some ⟨some bs⟩⟩)
      = Except.error "Cannot read properties of undefined (reading 'vars')" := by
    simp [formatResults, hlen]
  refine ⟨⟨_, hfmt⟩, ⟨"Cannot read properties of undefined (reading 'join')",
    by simp [formatResults, hlen]⟩, ?_⟩
  rw [handleCallTool_isError]
  have hrun : runTool
      (fun _ _ => FetchOutcome.response 200 ""
        (Except.ok (some ⟨none, some ⟨some bs⟩⟩)))
      "query_wikidata" (some args)
      = (match formatResults (some ⟨none, some ⟨some bs⟩⟩) with
         | Except.error m =>
             (Except.error m,
               [("https://frink.apps.renci.org/wikidata/sparql", args.query)])
         | Except.ok t =>
             (Except.ok (kgQueryText "wikidata" t (some ⟨none, some ⟨some bs⟩⟩)),
               [("https://frink.apps.renci.org/wikidata/sparql", args.query)])) := rfl
  exact ⟨"Cannot read properties of undefined (reading 'vars')",
    by rw [hrun, hfmt]⟩

/-- Witness for C9 with one non-empty binding row. -/
theorem formatter_missing_vars_raises_witness :
    [sampleBinding] ≠ ([] : List Binding)
      ∧ ((∃ m, formatResults (some ⟨none, some ⟨some [sampleBinding]⟩⟩)
            = Except.error m)
        ∧ (∃ m, formatResults (some ⟨some ⟨none⟩, some ⟨some [sampleBinding]⟩⟩)
            = Except.error m)
        ∧ (handleCallTool
              (fun _ _ => FetchOutcome.response 200 ""
                (Except.ok (some ⟨none, some ⟨some [sampleBinding]⟩⟩)))
              "query_wikidata" (some ⟨some "SELECT"⟩)).1.isError = true) :=
  ⟨by simp,
    formatter_missing_vars_raises [sampleBinding] ⟨some "SELECT"⟩ (by simp)⟩

/-- 100 identical sample rows (the truncation boundary). -/
def bindings100 : List Binding := List.replicate 100 sampleBinding

/-- 5 identical sample rows (strictly below the truncation boundary). -/
def bindingsFew : List Binding := List.replicate 5 sampleBinding

/-- C10: at the truncation boundary the formatter is exact — a payload
with exactly 100 bindings yields exactly 100 data rows and no trailing
note, and no note is appended for any binding count of at most 100 (so
the note appears only strictly above 100). -/
theorem formatter_truncation_boundary (vars : List String)
    (bs bs' : List Binding) (h : bs.length = 100) (h1 : bs' ≠ [])
    (h2 : bs'.length ≤ 100) :
    formatResults (some ⟨some ⟨some vars⟩, some ⟨some bs⟩⟩)
        = Except.ok (linesConcat (specHeaderRow vars :: specSeparatorRow vars
            :: bs.map (specDataRow vars)))
      ∧ (bs.map (specDataRow vars)).length = 100
      ∧ buildTable vars bs'
          = linesConcat (specHeaderRow vars :: specSeparatorRow vars
              :: (bs'.take ROW_LIMIT).map (specDataRow vars)) := by
  have hlen : ¬ bs.length = 0 := by simp [h]
  have htake : bs.take ROW_LIMIT = bs :=
    List.take_of_length_le (by rw [h]; exact Nat.le.refl)
  have hnot : ¬ ROW_LIMIT < bs.length := by rw [h]; decide
  refine ⟨?_, ?_, ?_⟩
  · simp [formatResults, hlen, buildTable_eq_specFormatTable, specFormatTable,
      hnot, htake, String.append_empty]
  · rw [List.length_map, h]
  · have hnot' : ¬ ROW_LIMIT < bs'.length := by
      simp only [ROW_LIMIT]
      omega
    simp [buildTable_eq_specFormatTable, specFormatTable, hnot',
      String.append_empty]

/-- Witness for C10 at exactly 100 bindings (and 5 bindings for the
no-note direction). -/
theorem formatter_truncation_boundary_witness :
    bindings100.length = 100 ∧ bindingsFew ≠ [] ∧ bindingsFew.length ≤ 100
      ∧ formatResults (some ⟨some ⟨some ["s"]⟩, some ⟨some bindings100⟩⟩)
          = Except.ok (linesConcat (specHeaderRow ["s"] :: specSeparatorRow ["s"]
              :: bindings100.map (specDataRow ["s"])))
      ∧ (bindings100.map (specDataRow ["s"])).length = 100
      ∧ buildTable ["s"] bindingsFew
          = linesConcat (specHeaderRow ["s"] :: specSeparatorRow ["s"]
              :: (bindingsFew.take ROW_LIMIT).map (specDataRow ["s"])) := by
  have h : bindings100.length = 100 := by simp [bindings100]
  have h1 : bindingsFew ≠ [] := by simp [bindingsFew]
  have h2 : bindingsFew.length ≤ 100 := by simp [bindingsFew]
  have ht := formatter_truncation_boundary ["s"] bindings100 bindingsFew h h1 h2
  exact ⟨h, h1, h2, ht.1, ht.2.1, ht.2.2⟩
